import Mathlib

/-!
Shallow embedding of the credit-ledger and generation-request lifecycle of
the content-generation storefront.

Sources embedded:
- `firestoreService.ts` (document-store adapter): `createUserProfile`,
  `getUserProfile`, `deductCreditsFromUser`, `addGenerationRecord`,
  `getUserGenerations`.
- `useUserStore.ts` (credit ledger store): `decrementCredits`,
  `initializeNewUserProfile`.
- `useGenerationsStore.ts` (generation ledger store): `fetchUserGenerations`.
- `storageService.ts`: `deleteFileFromFirebase`.
- `ImageGeneratorPage.tsx`: `checkCreditsAndProceed`,
  `handleTextToImageSubmit`, `handleImageToImageSubmit`.

Asynchronous handlers are embedded as pure state-passing functions: the
document store is an explicit value threaded through each call, awaited
external outcomes (HTTP responses, injected write failures) are parameters,
and thrown JavaScript errors become `Except` results.  Timestamps are `Nat`;
credit amounts are `Int` (the store does not prevent negative balances).
-/

namespace Future

/-- Subscription tiers of `UserProfileData.subscriptionStatus`. -/
inductive SubscriptionStatus
  | free
  | premiumMonthly
  | premiumAnnual
  deriving DecidableEq, Repr

/-- `UserProfileData` from `firestoreService.ts`: a document of the `users`
collection. -/
structure UserProfileData where
  id : String
  email : Option String
  name : String
  credits : Int
  subscriptionStatus : SubscriptionStatus
  createdAt : Nat
  updatedAt : Nat
  deriving DecidableEq, Repr

/-- Status enumeration of a generation record. -/
inductive GenStatus
  | pending
  | processing
  | completed
  | failed
  deriving DecidableEq, Repr

/-- A stored document of the `generations` collection, with the fields the
page handlers actually write (`userId`, `type`, `prompt`, `cost`) plus the
server-assigned fields `addGenerationRecord` fills in (`id`, `status`,
`createdAt`, `updatedAt`). -/
structure GenerationRecordData where
  id : String
  userId : String
  type : String
  prompt : String
  cost : Int
  status : GenStatus
  createdAt : Nat
  updatedAt : Nat
  deriving DecidableEq, Repr

/-- The client-supplied part of a generation record, as passed to
`addGeneration` / `addGenerationRecord` (no `id`, `createdAt`, `updatedAt`;
`status` optional, defaulted by the adapter). -/
structure GenerationInput where
  userId : String
  type : String
  prompt : String
  cost : Int
  status : Option GenStatus
  deriving DecidableEq, Repr

/-- Document-store failures surfaced by the adapter functions. -/
inductive DbError
  | notFound
  | unavailable
  deriving DecidableEq, Repr

/-- The document store: the `users` collection keyed by owner id, and the
`generations` collection as a bag of documents. -/
structure Firestore where
  users : List (String × UserProfileData)
  generations : List GenerationRecordData
  deriving DecidableEq, Repr

/-- Read a document of the `users` collection (`userRef.get`). -/
def getDoc (users : List (String × UserProfileData)) (k : String) :
    Option UserProfileData :=
  (users.find? (fun kv => kv.1 == k)).map (·.2)

/-- Overwrite-or-create a document of the `users` collection
(`userRef.set`). -/
def setDoc (users : List (String × UserProfileData)) (k : String)
    (v : UserProfileData) : List (String × UserProfileData) :=
  (k, v) :: users.filter (fun kv => kv.1 != k)

/-- `createUserProfile` from `firestoreService.ts`: writes a fresh profile
with 10 starting credits and the `free` tier at the current timestamp. -/
def createUserProfile (db : Firestore) (userId : String)
    (email : Option String) (name : Option String) (now : Nat) : Firestore :=
  let profileData : UserProfileData :=
    { id := userId
      email := email
      name := name.getD ""
      credits := 10
      subscriptionStatus := .free
      createdAt := now
      updatedAt := now }
  { db with users := setDoc db.users userId profileData }

/-- `getUserProfile` from `firestoreService.ts`: `none` when the document
does not exist (signalled as absence, not as an error). -/
def getUserProfile (db : Firestore) (userId : String) :
    Option UserProfileData :=
  getDoc db.users userId

/-- `deductCreditsFromUser` from `firestoreService.ts`: a non-positive
amount is a silent no-op; otherwise the `credits` field is atomically
incremented by the negated amount and `updatedAt` refreshed.  A Firestore
`update` on a missing document fails. -/
def deductCreditsFromUser (db : Firestore) (userId : String)
    (amountToDeduct : Int) (now : Nat) : Except DbError Firestore :=
  if amountToDeduct ≤ 0 then
    .ok db
  else
    match getDoc db.users userId with
    | none => .error .notFound
    | some p =>
        .ok { db with
                users := setDoc db.users userId
                  { p with credits := p.credits - amountToDeduct,
                           updatedAt := now } }

/-- `addGenerationRecord` from `firestoreService.ts`: assigns the
auto-generated id, defaults `status` to `completed`, and stamps
`createdAt`/`updatedAt` with the current time. -/
def addGenerationRecord (db : Firestore) (generationData : GenerationInput)
    (now : Nat) (newId : String) : Firestore :=
  let newRecord : GenerationRecordData :=
    { id := newId
      userId := generationData.userId
      type := generationData.type
      prompt := generationData.prompt
      cost := generationData.cost
      status := generationData.status.getD .completed
      createdAt := now
      updatedAt := now }
  { db with generations := db.generations ++ [newRecord] }

/-- The ordering used by `getUserGenerations`: creation time descending. -/
def createdDesc (a b : GenerationRecordData) : Prop :=
  b.createdAt ≤ a.createdAt

instance : DecidableRel createdDesc := fun a b =>
  inferInstanceAs (Decidable (b.createdAt ≤ a.createdAt))

instance : IsTotal GenerationRecordData createdDesc :=
  ⟨fun a b => le_total b.createdAt a.createdAt⟩

instance : IsTrans GenerationRecordData createdDesc :=
  ⟨fun _ _ _ h1 h2 => le_trans h2 h1⟩

/-- `getUserGenerations` from `firestoreService.ts`: the query
`where("userId", "==", userId).orderBy("createdAt", "desc")` — all of the
owner's records, sorted by creation time descending. -/
def getUserGenerations (db : Firestore) (userId : String) :
    List GenerationRecordData :=
  List.insertionSort createdDesc
    (db.generations.filter (fun r => r.userId == userId))

/-! ### Credit ledger store (`useUserStore.ts`) -/

/-- The observable state of `useUserStore`. -/
structure UserState where
  userProfile : Option UserProfileData
  isLoading : Bool
  error : Option String
  deriving DecidableEq, Repr

/-- Errors thrown by `decrementCredits`. -/
inductive DecrementError
  | insufficientOrMissing
  | writeFailed (e : DbError)
  deriving DecidableEq, Repr

/-- The optimistic local update inside `decrementCredits`: subtract `amount`
from the cached balance before the store write is awaited. -/
def optimisticDecrement (st : UserState) (amount : Int) : UserState :=
  { st with userProfile :=
      st.userProfile.map (fun p => { p with credits := p.credits - amount }) }

/-- The revert inside `decrementCredits`' catch block: add the deducted
amount back to the cached balance. -/
def revertDecrement (st : UserState) (amount : Int) : UserState :=
  { st with userProfile :=
      st.userProfile.map (fun p => { p with credits := p.credits + amount }) }

/-- Outcome of one `decrementCredits` call: the thrown-or-ok result, the
final local state and document store, and how many store writes were
issued (attempted). -/
structure DecrementResult where
  result : Except DecrementError Unit
  state : UserState
  db : Firestore
  writesIssued : Nat
  deriving Repr

/-- `decrementCredits` from `useUserStore.ts`.  Preconditions read the
cached profile: missing profile or `credits < amount` throws without any
write.  Otherwise the local balance is decremented optimistically, then the
atomic deduction write is issued; `writeFails` injects an awaited transport
failure of that write, on which the local subtraction is reverted and the
failure re-raised. -/
def decrementCredits (st : UserState) (db : Firestore) (amount : Int)
    (now : Nat) (writeFails : Option DbError) : DecrementResult :=
  match st.userProfile with
  | none => ⟨.error .insufficientOrMissing, st, db, 0⟩
  | some currentProfile =>
      if currentProfile.credits < amount then
        ⟨.error .insufficientOrMissing, st, db, 0⟩
      else
        let st1 := optimisticDecrement st amount
        match writeFails with
        | some e => ⟨.error (.writeFailed e), revertDecrement st1 amount, db, 1⟩
        | none =>
            match deductCreditsFromUser db currentProfile.id amount now with
            | .ok db1 => ⟨.ok (), st1, db1, 1⟩
            | .error e =>
                ⟨.error (.writeFailed e), revertDecrement st1 amount, db, 1⟩

/-- `initializeNewUserProfile` from `useUserStore.ts`: create the profile
document in the store, then re-fetch it so local state carries the
server-assigned defaults. -/
def initializeNewUserProfile (st : UserState) (db : Firestore)
    (userId : String) (email : Option String) (name : Option String)
    (now : Nat) : UserState × Firestore :=
  let db1 := createUserProfile db userId email name now
  let profile := getUserProfile db1 userId
  ({ st with userProfile := profile, isLoading := false, error := none }, db1)

/-! ### Generation ledger store (`useGenerationsStore.ts`) -/

/-- The observable state of `useGenerationsStore`. -/
structure GenerationsState where
  generations : List GenerationRecordData
  isLoading : Bool
  error : Option String
  deriving DecidableEq, Repr

/-- `fetchUserGenerations` from `useGenerationsStore.ts`: replaces the local
collection wholesale with the owner's records as returned by the store
query. -/
def fetchUserGenerations (st : GenerationsState) (db : Firestore)
    (userId : String) : GenerationsState :=
  { st with generations := getUserGenerations db userId,
            isLoading := false, error := none }

/-! ### Object-store delete (`storageService.ts`) -/

/-- Firebase Storage error codes relevant to `deleteFileFromFirebase`. -/
inductive StorageErrorCode
  | objectNotFound
  | unauthorized
  | canceled
  | unknown
  deriving DecidableEq, Repr

/-- What the object store reports for one delete attempt. -/
inductive DeleteStoreOutcome
  | success
  | failure (code : StorageErrorCode)
  deriving DecidableEq, Repr

/-- Errors raised by `deleteFileFromFirebase`. -/
inductive DeleteError
  | missingPath
  | storageError (code : StorageErrorCode)
  deriving DecidableEq, Repr

/-- `deleteFileFromFirebase` from `storageService.ts`: an empty path throws
before any store call; a `storage/object-not-found` failure from the store
is swallowed (treated as success); every other store failure is
rethrown. -/
def deleteFileFromFirebase (storagePath : String)
    (storeOutcome : DeleteStoreOutcome) : Except DeleteError Unit :=
  if storagePath = "" then
    .error .missingPath
  else
    match storeOutcome with
    | .success => .ok ()
    | .failure .objectNotFound => .ok ()
    | .failure code => .error (.storageError code)

/-! ### Page-level orchestration (`ImageGeneratorPage.tsx`)

The asynchronous handlers are embedded sequentially: the HTTP response is a
parameter (the one network call each handler issues), thrown errors land in
the `result` field as the page's catch block would surface them, and the
`decrementCredits` call is embedded as an awaited sequential step. -/

def IMAGE_GENERATION_COST : Int := 1

def IMAGE_EDIT_COST : Int := 1

/-- `GeneratedImageData` of the API contract: relative path plus seed. -/
structure GeneratedImageData where
  image_path : String
  seed : Int
  deriving DecidableEq, Repr

/-- Outcome of the one HTTP call a handler awaits: `ok` with the parsed
JSON body, or a non-ok status with its error detail. -/
inductive ApiResponse (α : Type)
  | ok (body : α)
  | err (detail : String)
  deriving DecidableEq, Repr

/-- Parsed body of a `generate_image` response. -/
structure ImageGenResponseBody where
  generated_images : List GeneratedImageData
  deriving DecidableEq, Repr

/-- Parsed body of an `edit_image_with_prompt` response. -/
structure EditImageResponseBody where
  edited_images : List GeneratedImageData
  original_image_path : Option String
  deriving DecidableEq, Repr

/-- `GeneratedImageDisplayData`: what the page renders per returned image. -/
structure GeneratedImageDisplayData where
  id : String
  src : String
  alt : String
  seed : Int
  apiPath : String
  deriving DecidableEq, Repr

/-- Building one display entry: the src URL is the base API origin plus the
returned relative path (with a `/` inserted when missing). -/
def mkDisplayImage (apiUrl : String) (alt : String)
    (item : GeneratedImageData) : GeneratedImageDisplayData :=
  { id := item.image_path
    src := apiUrl ++
      (if item.image_path.startsWith "/" then item.image_path
       else "/" ++ item.image_path)
    alt := alt
    seed := item.seed
    apiPath := item.image_path }

/-- The blank-prompt guard `!prompt.trim()`: a JS string is falsy after
`trim()` exactly when it consists solely of whitespace. -/
def isBlank (s : String) : Bool :=
  s.data.all Char.isWhitespace

/-- `checkCreditsAndProceed`: false when no profile is loaded or the cached
balance is below the required cost. -/
def checkCreditsAndProceed (userProfile : Option UserProfileData)
    (cost : Int) : Bool :=
  match userProfile with
  | none => false
  | some p => !(p.credits < cost)

/-- The distinct failure exits of a page handler (each surfaced as an error
toast by the page). -/
inductive PageFailure
  | missingUserId
  | creditCheckFailed
  | emptyPrompt
  | noUploadedFile
  | apiError (detail : String)
  | noImagesReturned
  | decrementFailed (e : DecrementError)
  deriving Repr

/-- Result of one handler run: success or which failure exit was taken, the
final credit-store state and document store, the display images set, and
how many HTTP generation calls were issued. -/
structure PageOutcome where
  result : Except PageFailure Unit
  state : UserState
  db : Firestore
  displayImages : List GeneratedImageDisplayData
  networkCalls : Nat
  deriving Repr

/-- `handleTextToImageSubmit`: guards (user id, credit pre-check at
`IMAGE_GENERATION_COST * numImages`, non-blank prompt) run before the HTTP
call; on an ok response with a non-empty image list the page sets the
display images, decrements the pre-computed total cost, and appends a
generation record with that same cost. -/
def handleTextToImageSubmit (st : UserState) (db : Firestore)
    (numImages : Int) (submittedPrompt : String) (apiUrl : String)
    (response : ApiResponse ImageGenResponseBody) (now : Nat)
    (newId : String) : PageOutcome :=
  match st.userProfile with
  | none => ⟨.error .missingUserId, st, db, [], 0⟩
  | some userProfile =>
      let totalCost := IMAGE_GENERATION_COST * numImages
      if !checkCreditsAndProceed st.userProfile totalCost then
        ⟨.error .creditCheckFailed, st, db, [], 0⟩
      else if isBlank submittedPrompt then
        ⟨.error .emptyPrompt, st, db, [], 0⟩
      else
        match response with
        | .err detail => ⟨.error (.apiError detail), st, db, [], 1⟩
        | .ok result =>
            if result.generated_images.isEmpty then
              ⟨.error .noImagesReturned, st, db, [], 1⟩
            else
              let newDisplayImages := result.generated_images.map
                (mkDisplayImage apiUrl submittedPrompt)
              let d := decrementCredits st db totalCost now none
              match d.result with
              | .error e =>
                  ⟨.error (.decrementFailed e), d.state, d.db,
                    newDisplayImages, 1⟩
              | .ok _ =>
                  let db2 := addGenerationRecord d.db
                    { userId := userProfile.id
                      type := "text-to-image"
                      prompt := submittedPrompt
                      cost := totalCost
                      status := none } now newId
                  ⟨.ok (), d.state, db2, newDisplayImages, 1⟩

/-- `handleImageToImageSubmit`: guards (uploaded file, non-blank prompt,
user id, credit pre-check at the fixed `IMAGE_EDIT_COST`) run before the
HTTP call; on an ok response with a non-empty edited-image list the page
sets the display images, then decrements `IMAGE_EDIT_COST` times the number
of returned images and appends a record with that same cost. -/
def handleImageToImageSubmit (st : UserState) (db : Firestore)
    (hasUploadedImageFile : Bool) (submittedEditPrompt : String)
    (apiUrl : String) (response : ApiResponse EditImageResponseBody)
    (now : Nat) (newId : String) : PageOutcome :=
  if !hasUploadedImageFile then
    ⟨.error .noUploadedFile, st, db, [], 0⟩
  else if isBlank submittedEditPrompt then
    ⟨.error .emptyPrompt, st, db, [], 0⟩
  else
    match st.userProfile with
    | none => ⟨.error .missingUserId, st, db, [], 0⟩
    | some userProfile =>
        if !checkCreditsAndProceed st.userProfile IMAGE_EDIT_COST then
          ⟨.error .creditCheckFailed, st, db, [], 0⟩
        else
          match response with
          | .err detail => ⟨.error (.apiError detail), st, db, [], 1⟩
          | .ok result =>
              if result.edited_images.isEmpty then
                ⟨.error .noImagesReturned, st, db, [], 1⟩
              else
                let newEditedImages := result.edited_images.map
                  (mkDisplayImage apiUrl submittedEditPrompt)
                let amount :=
                  IMAGE_EDIT_COST * (newEditedImages.length : Int)
                let d := decrementCredits st db amount now none
                match d.result with
                | .error e =>
                    ⟨.error (.decrementFailed e), d.state, d.db,
                      newEditedImages, 1⟩
                | .ok _ =>
                    let db2 := addGenerationRecord d.db
                      { userId := userProfile.id
                        type := "image-to-image"
                        prompt := submittedEditPrompt
                        cost := amount
                        status := none } now newId
                    ⟨.ok (), d.state, db2, newEditedImages, 1⟩

/-! ### Helper lemmas -/

/-- Looking up a key just written by `setDoc` returns the written value. -/
theorem getDoc_setDoc (users : List (String × UserProfileData)) (k : String)
    (v : UserProfileData) : getDoc (setDoc users k v) k = some v := by
  simp [getDoc, setDoc]

/-! ### Claims -/

/-- C10: calling the store-level credit deduction primitive with a
non-positive amount returns successfully without performing any write and
without raising an error. -/
theorem deductCreditsFromUser_nonpositive_noop (db : Firestore)
    (userId : String) (amountToDeduct : Int) (now : Nat)
    (h : amountToDeduct ≤ 0) :
    deductCreditsFromUser db userId amountToDeduct now = .ok db := by
  simp [deductCreditsFromUser, h]

theorem deductCreditsFromUser_nonpositive_noop_witness :
    ((-2 : Int) ≤ 0) ∧
    deductCreditsFromUser ⟨[], []⟩ "u1" (-2) 5 = .ok ⟨[], []⟩ :=
  ⟨by decide, deductCreditsFromUser_nonpositive_noop ⟨[], []⟩ "u1" (-2) 5
    (by decide)⟩

/-- C8: deleting a storage path for which the store reports
object-not-found completes without raising an error, and every other delete
failure is rethrown to the caller. -/
theorem deleteFileFromFirebase_objectNotFound_noop (storagePath : String)
    (code : StorageErrorCode) (hpath : storagePath ≠ "")
    (hcode : code ≠ .objectNotFound) :
    deleteFileFromFirebase storagePath (.failure .objectNotFound) = .ok () ∧
    deleteFileFromFirebase storagePath (.failure code) =
      .error (.storageError code) := by
  constructor
  · simp [deleteFileFromFirebase, hpath]
  · cases code with
    | objectNotFound => exact absurd rfl hcode
    | unauthorized => simp [deleteFileFromFirebase, hpath]
    | canceled => simp [deleteFileFromFirebase, hpath]
    | unknown => simp [deleteFileFromFirebase, hpath]

theorem deleteFileFromFirebase_objectNotFound_noop_witness :
    ("generations/image/u1/a.png" ≠ ("" : String)) ∧
    (StorageErrorCode.unauthorized ≠ StorageErrorCode.objectNotFound) ∧
    (deleteFileFromFirebase "generations/image/u1/a.png"
        (.failure .objectNotFound) = .ok () ∧
     deleteFileFromFirebase "generations/image/u1/a.png"
        (.failure .unauthorized) = .error (.storageError .unauthorized)) :=
  ⟨by decide, by decide,
   deleteFileFromFirebase_objectNotFound_noop "generations/image/u1/a.png"
     .unauthorized (by decide) (by decide)⟩

/-- C9: initializing a new user profile creates a profile whose balance is
the fixed starting value 10 and whose tier is free, and local state holds
exactly the profile re-fetched from the store after the write. -/
theorem initializeNewUserProfile_defaults (st : UserState) (db : Firestore)
    (userId : String) (email : Option String) (name : Option String)
    (now : Nat) :
    (initializeNewUserProfile st db userId email name now).1.userProfile =
      getUserProfile
        (initializeNewUserProfile st db userId email name now).2 userId ∧
    ((initializeNewUserProfile st db userId email name now).1.userProfile.map
      (·.credits)) = some 10 ∧
    ((initializeNewUserProfile st db userId email name now).1.userProfile.map
      (·.subscriptionStatus)) = some .free := by
  refine ⟨rfl, ?_, ?_⟩ <;>
    simp [initializeNewUserProfile, createUserProfile, getUserProfile,
      getDoc_setDoc]

/-- C7: the list returned by the fetch-for-owner query is in non-increasing
creation-time order, and the fetch replaces the local collection wholesale
with that list. -/
theorem getUserGenerations_sorted_fetch_replaces (db : Firestore)
    (userId : String) (st : GenerationsState) :
    List.Sorted (fun a b => b.createdAt ≤ a.createdAt)
      (getUserGenerations db userId) ∧
    (fetchUserGenerations st db userId).generations =
      getUserGenerations db userId := by
  exact ⟨List.sorted_insertionSort createdDesc _, rfl⟩

/-- C3: a credit decrement attempt with no loaded profile, or with a loaded
balance strictly below the requested amount, fails with the
insufficient-credits-or-missing-profile error, leaves the local state
unchanged, and issues no store write. -/
theorem decrementCredits_insufficient_no_write (st : UserState)
    (db : Firestore) (amount : Int) (now : Nat) (writeFails : Option DbError)
    (h : st.userProfile = none ∨
      ∃ p, st.userProfile = some p ∧ p.credits < amount) :
    (decrementCredits st db amount now writeFails).result =
      .error .insufficientOrMissing ∧
    (decrementCredits st db amount now writeFails).state = st ∧
    (decrementCredits st db amount now writeFails).db = db ∧
    (decrementCredits st db amount now writeFails).writesIssued = 0 := by
  rcases h with hnone | ⟨p, hp, hlt⟩
  · simp [decrementCredits, hnone]
  · simp [decrementCredits, hp, hlt]

theorem decrementCredits_insufficient_no_write_witness :
    ((⟨some ⟨"u1", none, "U", 2, .free, 0, 0⟩, false, none⟩ :
        UserState).userProfile = none ∨
      ∃ p, (⟨some ⟨"u1", none, "U", 2, .free, 0, 0⟩, false, none⟩ :
        UserState).userProfile = some p ∧ p.credits < 3) ∧
    ((decrementCredits ⟨some ⟨"u1", none, "U", 2, .free, 0, 0⟩, false, none⟩
        ⟨[], []⟩ 3 9 none).result = .error .insufficientOrMissing ∧
     (decrementCredits ⟨some ⟨"u1", none, "U", 2, .free, 0, 0⟩, false, none⟩
        ⟨[], []⟩ 3 9 none).state =
       ⟨some ⟨"u1", none, "U", 2, .free, 0, 0⟩, false, none⟩ ∧
     (decrementCredits ⟨some ⟨"u1", none, "U", 2, .free, 0, 0⟩, false, none⟩
        ⟨[], []⟩ 3 9 none).db = ⟨[], []⟩ ∧
     (decrementCredits ⟨some ⟨"u1", none, "U", 2, .free, 0, 0⟩, false, none⟩
        ⟨[], []⟩ 3 9 none).writesIssued = 0) :=
  ⟨Or.inr ⟨_, rfl, by decide⟩,
   decrementCredits_insufficient_no_write _ ⟨[], []⟩ 3 9 none
     (Or.inr ⟨_, rfl, by decide⟩)⟩

/-- C2: on a successful decrement of `amount` from balance `b`, the local
balance is `b - amount` in the optimistic state from which the store write
is issued; and when that write fails, the local balance is restored to `b`
and the failure is re-raised to the caller. -/
theorem decrementCredits_optimistic_then_revert (st : UserState)
    (db : Firestore) (p : UserProfileData) (amount : Int) (now : Nat)
    (e : DbError) (hp : st.userProfile = some p)
    (hok : amount ≤ p.credits) :
    ((optimisticDecrement st amount).userProfile.map (·.credits)) =
      some (p.credits - amount) ∧
    (decrementCredits st db amount now (some e)).result =
      .error (.writeFailed e) ∧
    ((decrementCredits st db amount now (some e)).state.userProfile.map
      (·.credits)) = some p.credits := by
  have hnlt : ¬ p.credits < amount := not_lt.mpr hok
  refine ⟨?_, ?_, ?_⟩ <;>
    simp [optimisticDecrement, revertDecrement, decrementCredits, hp, hnlt]

theorem decrementCredits_optimistic_then_revert_witness :
    ((⟨some ⟨"u1", none, "U", 5, .free, 0, 0⟩, false, none⟩ :
        UserState).userProfile = some ⟨"u1", none, "U", 5, .free, 0, 0⟩) ∧
    ((3 : Int) ≤ 5) ∧
    (((optimisticDecrement
          ⟨some ⟨"u1", none, "U", 5, .free, 0, 0⟩, false, none⟩ 3).userProfile.map
        (·.credits)) = some 2 ∧
     (decrementCredits ⟨some ⟨"u1", none, "U", 5, .free, 0, 0⟩, false, none⟩
        ⟨[("u1", ⟨"u1", none, "U", 5, .free, 0, 0⟩)], []⟩ 3 9
        (some .unavailable)).result = .error (.writeFailed .unavailable) ∧
     ((decrementCredits ⟨some ⟨"u1", none, "U", 5, .free, 0, 0⟩, false, none⟩
        ⟨[("u1", ⟨"u1", none, "U", 5, .free, 0, 0⟩)], []⟩ 3 9
        (some .unavailable)).state.userProfile.map (·.credits)) = some 5) :=
  ⟨rfl, by decide,
   decrementCredits_optimistic_then_revert
     ⟨some ⟨"u1", none, "U", 5, .free, 0, 0⟩, false, none⟩
     ⟨[("u1", ⟨"u1", none, "U", 5, .free, 0, 0⟩)], []⟩
     ⟨"u1", none, "U", 5, .free, 0, 0⟩ 3 9 .unavailable rfl (by decide)⟩

/-- Shared helper: when a profile is loaded with sufficient balance and the
store write can succeed (non-positive amount no-op, or the user document is
present), `decrementCredits` succeeds, leaves local state at the optimistic
value and does not touch the `generations` collection. -/
theorem decrementCredits_success (st : UserState) (db : Firestore)
    (p q : UserProfileData) (amount : Int) (now : Nat)
    (hp : st.userProfile = some p) (hok : amount ≤ p.credits)
    (hcase : amount ≤ 0 ∨ getDoc db.users p.id = some q) :
    (decrementCredits st db amount now none).result = .ok () ∧
    (decrementCredits st db amount now none).state =
      optimisticDecrement st amount ∧
    (decrementCredits st db amount now none).db.generations =
      db.generations := by
  have hnlt : ¬ p.credits < amount := not_lt.mpr hok
  rcases hcase with hle | hdb
  · simp [decrementCredits, deductCreditsFromUser, hp, hnlt, hle]
  · by_cases hle : amount ≤ 0 <;>
      simp [decrementCredits, deductCreditsFromUser, hp, hnlt, hle, hdb]

/-- C6: a batched text-to-image request whose pre-computed total cost
exceeds the loaded balance is rejected by the credit pre-check before any
network call, with local state and store unchanged. -/
theorem handleTextToImage_precheck_rejects (st : UserState) (db : Firestore)
    (p : UserProfileData) (numImages : Int)
    (submittedPrompt apiUrl : String)
    (response : ApiResponse ImageGenResponseBody) (now : Nat)
    (newId : String) (hp : st.userProfile = some p)
    (h : p.credits < IMAGE_GENERATION_COST * numImages) :
    (handleTextToImageSubmit st db numImages submittedPrompt apiUrl response
      now newId).result = .error .creditCheckFailed ∧
    (handleTextToImageSubmit st db numImages submittedPrompt apiUrl response
      now newId).state = st ∧
    (handleTextToImageSubmit st db numImages submittedPrompt apiUrl response
      now newId).db = db ∧
    (handleTextToImageSubmit st db numImages submittedPrompt apiUrl response
      now newId).networkCalls = 0 := by
  refine ⟨?_, ?_, ?_, ?_⟩ <;>
    simp [handleTextToImageSubmit, checkCreditsAndProceed, hp, h]

theorem handleTextToImage_precheck_rejects_witness :
    ((⟨some ⟨"u1", none, "U", 3, .free, 0, 0⟩, false, none⟩ :
        UserState).userProfile = some ⟨"u1", none, "U", 3, .free, 0, 0⟩) ∧
    ((3 : Int) < IMAGE_GENERATION_COST * 4) ∧
    ((handleTextToImageSubmit
        ⟨some ⟨"u1", none, "U", 3, .free, 0, 0⟩, false, none⟩ ⟨[], []⟩ 4
        "a cat" "https://api" (.err "unreached") 9 "g1").result =
          .error .creditCheckFailed ∧
     (handleTextToImageSubmit
        ⟨some ⟨"u1", none, "U", 3, .free, 0, 0⟩, false, none⟩ ⟨[], []⟩ 4
        "a cat" "https://api" (.err "unreached") 9 "g1").state =
          ⟨some ⟨"u1", none, "U", 3, .free, 0, 0⟩, false, none⟩ ∧
     (handleTextToImageSubmit
        ⟨some ⟨"u1", none, "U", 3, .free, 0, 0⟩, false, none⟩ ⟨[], []⟩ 4
        "a cat" "https://api" (.err "unreached") 9 "g1").db = ⟨[], []⟩ ∧
     (handleTextToImageSubmit
        ⟨some ⟨"u1", none, "U", 3, .free, 0, 0⟩, false, none⟩ ⟨[], []⟩ 4
        "a cat" "https://api" (.err "unreached") 9 "g1").networkCalls = 0) :=
  ⟨rfl, by decide,
   handleTextToImage_precheck_rejects
     ⟨some ⟨"u1", none, "U", 3, .free, 0, 0⟩, false, none⟩ ⟨[], []⟩
     ⟨"u1", none, "U", 3, .free, 0, 0⟩ 4 "a cat" "https://api"
     (.err "unreached") 9 "g1" rfl (by decide)⟩

/-- C5: an edit-image response with ok status but an empty edited-image
list is treated as a failure: local state and the document store are left
unchanged (no credits decremented, no record created) and the handler does
not succeed. -/
theorem handleImageToImage_emptyResults_failure (st : UserState)
    (db : Firestore) (hasUploadedImageFile : Bool)
    (submittedEditPrompt apiUrl : String)
    (originalImagePath : Option String) (now : Nat) (newId : String) :
    (handleImageToImageSubmit st db hasUploadedImageFile submittedEditPrompt
      apiUrl (.ok ⟨[], originalImagePath⟩) now newId).state = st ∧
    (handleImageToImageSubmit st db hasUploadedImageFile submittedEditPrompt
      apiUrl (.ok ⟨[], originalImagePath⟩) now newId).db = db ∧
    (handleImageToImageSubmit st db hasUploadedImageFile submittedEditPrompt
      apiUrl (.ok ⟨[], originalImagePath⟩) now newId).result ≠ .ok () := by
  unfold handleImageToImageSubmit
  cases hasUploadedImageFile with
  | false => simp
  | true =>
    by_cases hpr : isBlank submittedEditPrompt
    · simp [hpr]
    · cases hprof : st.userProfile with
      | none => simp [hpr, hprof]
      | some p =>
        by_cases hc : checkCreditsAndProceed (some p) IMAGE_EDIT_COST <;>
          simp [hpr, hprof, hc]

/-- C4: a successful edit-image action returning `k` edited images with ok
status decrements `IMAGE_EDIT_COST * k` credits (`k` being the returned
count) and appends a generation record whose `cost` field is that same
amount. -/
theorem handleImageToImage_cost_eq_returned_count (st : UserState)
    (db : Firestore) (p q : UserProfileData)
    (submittedEditPrompt apiUrl : String) (imgs : List GeneratedImageData)
    (originalImagePath : Option String) (now : Nat) (newId : String)
    (hp : st.userProfile = some p)
    (hprompt : isBlank submittedEditPrompt = false)
    (himgs : imgs ≠ [])
    (hbal : IMAGE_EDIT_COST * (imgs.length : Int) ≤ p.credits)
    (hdb : getDoc db.users p.id = some q) :
    (handleImageToImageSubmit st db true submittedEditPrompt apiUrl
      (.ok ⟨imgs, originalImagePath⟩) now newId).result = .ok () ∧
    ((handleImageToImageSubmit st db true submittedEditPrompt apiUrl
      (.ok ⟨imgs, originalImagePath⟩) now newId).state.userProfile.map
        (·.credits)) =
      some (p.credits - IMAGE_EDIT_COST * (imgs.length : Int)) ∧
    (handleImageToImageSubmit st db true submittedEditPrompt apiUrl
      (.ok ⟨imgs, originalImagePath⟩) now newId).db.generations =
      db.generations ++
        [{ id := newId
           userId := p.id
           type := "image-to-image"
           prompt := submittedEditPrompt
           cost := IMAGE_EDIT_COST * (imgs.length : Int)
           status := .completed
           createdAt := now
           updatedAt := now }] := by
  have hk : (1 : Int) ≤ (imgs.length : Int) := by
    have : imgs.length ≠ 0 := fun h0 => himgs (List.length_eq_zero.mp h0)
    exact_mod_cast Nat.one_le_iff_ne_zero.mpr this
  have hbal1 : (imgs.length : Int) ≤ p.credits := by
    simpa [IMAGE_EDIT_COST] using hbal
  have hc1 : ¬ p.credits < IMAGE_EDIT_COST := by
    simp only [IMAGE_EDIT_COST]; omega
  have hne : ¬ imgs.isEmpty := by
    cases imgs with
    | nil => exact absurd rfl himgs
    | cons a l => simp
  obtain ⟨hres, hstate, hgen⟩ := decrementCredits_success st db p q
    (IMAGE_EDIT_COST * (imgs.length : Int)) now hp hbal (Or.inr hdb)
  refine ⟨?_, ?_, ?_⟩ <;>
    simp [handleImageToImageSubmit, hp, hprompt, checkCreditsAndProceed, hc1,
      hne, List.length_map, hres, hstate, hgen, optimisticDecrement,
      addGenerationRecord]

theorem handleImageToImage_cost_eq_returned_count_witness :
    ((⟨some ⟨"u1", none, "U", 5, .free, 0, 0⟩, false, none⟩ :
        UserState).userProfile = some ⟨"u1", none, "U", 5, .free, 0, 0⟩) ∧
    (isBlank "make it art" = false) ∧
    (([⟨"/e1.png", 1⟩, ⟨"/e2.png", 2⟩] : List GeneratedImageData) ≠ []) ∧
    (IMAGE_EDIT_COST *
      ((([⟨"/e1.png", 1⟩, ⟨"/e2.png", 2⟩] :
        List GeneratedImageData).length : Int)) ≤ 5) ∧
    (getDoc [("u1", ⟨"u1", none, "U", 5, .free, 0, 0⟩)] "u1" =
      some ⟨"u1", none, "U", 5, .free, 0, 0⟩) ∧
    ((handleImageToImageSubmit
        ⟨some ⟨"u1", none, "U", 5, .free, 0, 0⟩, false, none⟩
        ⟨[("u1", ⟨"u1", none, "U", 5, .free, 0, 0⟩)], []⟩ true "make it art"
        "https://api" (.ok ⟨[⟨"/e1.png", 1⟩, ⟨"/e2.png", 2⟩], none⟩) 9
        "g1").result = .ok () ∧
     ((handleImageToImageSubmit
        ⟨some ⟨"u1", none, "U", 5, .free, 0, 0⟩, false, none⟩
        ⟨[("u1", ⟨"u1", none, "U", 5, .free, 0, 0⟩)], []⟩ true "make it art"
        "https://api" (.ok ⟨[⟨"/e1.png", 1⟩, ⟨"/e2.png", 2⟩], none⟩) 9
        "g1").state.userProfile.map (·.credits)) =
       some (5 - IMAGE_EDIT_COST *
         ((([⟨"/e1.png", 1⟩, ⟨"/e2.png", 2⟩] :
           List GeneratedImageData).length : Int))) ∧
     (handleImageToImageSubmit
        ⟨some ⟨"u1", none, "U", 5, .free, 0, 0⟩, false, none⟩
        ⟨[("u1", ⟨"u1", none, "U", 5, .free, 0, 0⟩)], []⟩ true "make it art"
        "https://api" (.ok ⟨[⟨"/e1.png", 1⟩, ⟨"/e2.png", 2⟩], none⟩) 9
        "g1").db.generations =
       [] ++
        [{ id := "g1"
           userId := "u1"
           type := "image-to-image"
           prompt := "make it art"
           cost := IMAGE_EDIT_COST *
             ((([⟨"/e1.png", 1⟩, ⟨"/e2.png", 2⟩] :
               List GeneratedImageData).length : Int))
           status := .completed
           createdAt := 9
           updatedAt := 9 }]) :=
  ⟨rfl, by decide, by decide, by decide, by decide,
   handleImageToImage_cost_eq_returned_count
     ⟨some ⟨"u1", none, "U", 5, .free, 0, 0⟩, false, none⟩
     ⟨[("u1", ⟨"u1", none, "U", 5, .free, 0, 0⟩)], []⟩
     ⟨"u1", none, "U", 5, .free, 0, 0⟩ ⟨"u1", none, "U", 5, .free, 0, 0⟩
     "make it art" "https://api" [⟨"/e1.png", 1⟩, ⟨"/e2.png", 2⟩] none 9 "g1"
     rfl (by decide) (by decide) (by decide) (by decide)⟩

/-- C1 (counterexample): with 5 loaded credits, a single-image text-to-image
generation whose ok response returns 2 images leaves the local balance at
4 = 5 - (1 x 1) and records a cost of 1 — not the balance 3 and cost 2 the
claim asserts: plain generation is billed by the requested count, not by
the number of returned images. -/
theorem handleTextToImage_scenarioB_counterexample :
    (handleTextToImageSubmit
        ⟨some ⟨"u1", none, "U", 5, .free, 0, 0⟩, false, none⟩
        ⟨[("u1", ⟨"u1", none, "U", 5, .free, 0, 0⟩)], []⟩ 1 "a cat"
        "https://api" (.ok ⟨[⟨"/a.png", 1⟩, ⟨"/b.png", 2⟩]⟩) 9
        "g1").result = .ok () ∧
    ((handleTextToImageSubmit
        ⟨some ⟨"u1", none, "U", 5, .free, 0, 0⟩, false, none⟩
        ⟨[("u1", ⟨"u1", none, "U", 5, .free, 0, 0⟩)], []⟩ 1 "a cat"
        "https://api" (.ok ⟨[⟨"/a.png", 1⟩, ⟨"/b.png", 2⟩]⟩) 9
        "g1").state.userProfile.map (·.credits)) = some 4 ∧
    ((handleTextToImageSubmit
        ⟨some ⟨"u1", none, "U", 5, .free, 0, 0⟩, false, none⟩
        ⟨[("u1", ⟨"u1", none, "U", 5, .free, 0, 0⟩)], []⟩ 1 "a cat"
        "https://api" (.ok ⟨[⟨"/a.png", 1⟩, ⟨"/b.png", 2⟩]⟩) 9
        "g1").db.generations.map (·.cost)) = [1] ∧
    ((handleTextToImageSubmit
        ⟨some ⟨"u1", none, "U", 5, .free, 0, 0⟩, false, none⟩
        ⟨[("u1", ⟨"u1", none, "U", 5, .free, 0, 0⟩)], []⟩ 1 "a cat"
        "https://api" (.ok ⟨[⟨"/a.png", 1⟩, ⟨"/b.png", 2⟩]⟩) 9
        "g1").state.userProfile.map (·.credits)) ≠ some 3 ∧
    ((handleTextToImageSubmit
        ⟨some ⟨"u1", none, "U", 5, .free, 0, 0⟩, false, none⟩
        ⟨[("u1", ⟨"u1", none, "U", 5, .free, 0, 0⟩)], []⟩ 1 "a cat"
        "https://api" (.ok ⟨[⟨"/a.png", 1⟩, ⟨"/b.png", 2⟩]⟩) 9
        "g1").db.generations.map (·.cost)) ≠ [2] :=
  ⟨rfl, by decide, by decide, by decide, by decide⟩

/-- C1 (amended): a successful text-to-image generation with requested
count `numImages` decrements `IMAGE_GENERATION_COST * numImages` credits
and appends a record with that same cost, regardless of how many images
the ok response returned (5 credits, one requested, two returned: balance
4, recorded cost 1). -/
theorem handleTextToImage_cost_eq_requested_count (st : UserState)
    (db : Firestore) (p q : UserProfileData) (numImages : Int)
    (submittedPrompt apiUrl : String) (imgs : List GeneratedImageData)
    (now : Nat) (newId : String)
    (hp : st.userProfile = some p)
    (hprompt : isBlank submittedPrompt = false)
    (himgs : imgs ≠ [])
    (hbal : IMAGE_GENERATION_COST * numImages ≤ p.credits)
    (hdb : getDoc db.users p.id = some q) :
    (handleTextToImageSubmit st db numImages submittedPrompt apiUrl
      (.ok ⟨imgs⟩) now newId).result = .ok () ∧
    ((handleTextToImageSubmit st db numImages submittedPrompt apiUrl
      (.ok ⟨imgs⟩) now newId).state.userProfile.map (·.credits)) =
      some (p.credits - IMAGE_GENERATION_COST * numImages) ∧
    (handleTextToImageSubmit st db numImages submittedPrompt apiUrl
      (.ok ⟨imgs⟩) now newId).db.generations =
      db.generations ++
        [{ id := newId
           userId := p.id
           type := "text-to-image"
           prompt := submittedPrompt
           cost := IMAGE_GENERATION_COST * numImages
           status := .completed
           createdAt := now
           updatedAt := now }] := by
  have hnlt : ¬ p.credits < IMAGE_GENERATION_COST * numImages :=
    not_lt.mpr hbal
  have hne : ¬ imgs.isEmpty := by
    cases imgs with
    | nil => exact absurd rfl himgs
    | cons a l => simp
  obtain ⟨hres, hstate, hgen⟩ := decrementCredits_success st db p q
    (IMAGE_GENERATION_COST * numImages) now hp hbal (Or.inr hdb)
  refine ⟨?_, ?_, ?_⟩ <;>
    simp [handleTextToImageSubmit, hp, hprompt, checkCreditsAndProceed, hnlt,
      hne, hres, hstate, hgen, optimisticDecrement, addGenerationRecord]

theorem handleTextToImage_cost_eq_requested_count_witness :
    ((⟨some ⟨"u1", none, "U", 5, .free, 0, 0⟩, false, none⟩ :
        UserState).userProfile = some ⟨"u1", none, "U", 5, .free, 0, 0⟩) ∧
    (isBlank "a cat" = false) ∧
    (([⟨"/a.png", 1⟩, ⟨"/b.png", 2⟩] : List GeneratedImageData) ≠ []) ∧
    (IMAGE_GENERATION_COST * 1 ≤ (5 : Int)) ∧
    (getDoc [("u1", ⟨"u1", none, "U", 5, .free, 0, 0⟩)] "u1" =
      some ⟨"u1", none, "U", 5, .free, 0, 0⟩) ∧
    ((handleTextToImageSubmit
        ⟨some ⟨"u1", none, "U", 5, .free, 0, 0⟩, false, none⟩
        ⟨[("u1", ⟨"u1", none, "U", 5, .free, 0, 0⟩)], []⟩ 1 "a cat"
        "https://api" (.ok ⟨[⟨"/a.png", 1⟩, ⟨"/b.png", 2⟩]⟩) 9
        "g2").result = .ok () ∧
     ((handleTextToImageSubmit
        ⟨some ⟨"u1", none, "U", 5, .free, 0, 0⟩, false, none⟩
        ⟨[("u1", ⟨"u1", none, "U", 5, .free, 0, 0⟩)], []⟩ 1 "a cat"
        "https://api" (.ok ⟨[⟨"/a.png", 1⟩, ⟨"/b.png", 2⟩]⟩) 9
        "g2").state.userProfile.map (·.credits)) =
       some (5 - IMAGE_GENERATION_COST * 1) ∧
     (handleTextToImageSubmit
        ⟨some ⟨"u1", none, "U", 5, .free, 0, 0⟩, false, none⟩
        ⟨[("u1", ⟨"u1", none, "U", 5, .free, 0, 0⟩)], []⟩ 1 "a cat"
        "https://api" (.ok ⟨[⟨"/a.png", 1⟩, ⟨"/b.png", 2⟩]⟩) 9
        "g2").db.generations =
       [] ++
        [{ id := "g2"
           userId := "u1"
           type := "text-to-image"
           prompt := "a cat"
           cost := IMAGE_GENERATION_COST * 1
           status := .completed
           createdAt := 9
           updatedAt := 9 }]) :=
  ⟨rfl, by decide, by decide, by decide, by decide,
   handleTextToImage_cost_eq_requested_count
     ⟨some ⟨"u1", none, "U", 5, .free, 0, 0⟩, false, none⟩
     ⟨[("u1", ⟨"u1", none, "U", 5, .free, 0, 0⟩)], []⟩
     ⟨"u1", none, "U", 5, .free, 0, 0⟩ ⟨"u1", none, "U", 5, .free, 0, 0⟩ 1
     "a cat" "https://api" [⟨"/a.png", 1⟩, ⟨"/b.png", 2⟩] 9 "g2" rfl
     (by decide) (by decide) (by decide) (by decide)⟩

end Future
